import Mathlib

/-!
Shallow embedding of `src/system_monitor.py` (a single-file host resource
monitor) and verification of its specification claims.

Modelling conventions:
- Python floats (resource percentages, thresholds, cooldown seconds) are
  modelled as `ℚ`.
- Timestamps (`datetime`) are modelled as rational seconds elapsed since
  `datetime.min`; `datetime.min` itself is the value `0`, and
  `(a - b).total_seconds()` is plain subtraction.
- `psutil` (the OS sampler) is external: its outcome is an input
  `Option ResourceUsage` (`none` = the underlying OS query raised).
- `smtplib` (the mail transport) is external: its outcome per metric is an
  input `Metric → Bool` (`false` = the SMTP session raised).
- `yaml.safe_load` plus `open` are external: their outcome is an input
  `Except String (Option RawConfig)` (`Except.error` = open/parse raised,
  `Except.ok none` = the document parsed to `None`, e.g. an empty file;
  a parsed mapping may lack any of its keys, hence `Option` fields).
- Side effects (console printing, logging) are reified as returned data:
  the rendered report and a list of `LogEvent`s with their levels.
-/

/-- The three monitored metrics. -/
inductive Metric
  | cpu
  | memory
  | disk
deriving DecidableEq, Repr

/-- Log levels used by the script (`logging.info/warning/error`). -/
inductive LogLevel
  | info
  | warning
  | error
deriving DecidableEq, Repr

/-- A single logging call: its level and message. -/
structure LogEvent where
  level : LogLevel
  msg : String
deriving DecidableEq, Repr

/-- `ResourceUsage` dataclass (src lines 23-29): one snapshot of resource
usage, with the timestamp taken by `datetime.now()` inside
`get_resource_usage`. -/
structure ResourceUsage where
  cpu_percent : ℚ
  memory_percent : ℚ
  disk_percent : ℚ
  timestamp : ℚ
deriving DecidableEq, Repr

/-- The `thresholds` mapping of the configuration: a percentage limit per
metric, keys `cpu`, `memory`, `disk`. -/
structure Thresholds where
  cpu : ℚ
  memory : ℚ
  disk : ℚ
deriving DecidableEq, Repr

/-- The `email` mapping of the configuration. -/
structure EmailConfig where
  smtp_server : String
  smtp_port : Nat
  sender : String
  password : String
  recipient : String
deriving DecidableEq, Repr

/-- A configuration document as returned by `yaml.safe_load` on a mapping:
each key may be absent (`none`). -/
structure RawConfig where
  thresholds : Option Thresholds
  email : Option EmailConfig
  interval : Option ℚ
  alert_cooldown : Option ℚ
deriving DecidableEq, Repr

/-- The per-metric `last_alert_time` dictionary (src lines 41-45). -/
structure LastAlert where
  cpu : ℚ
  memory : ℚ
  disk : ℚ
deriving DecidableEq, Repr

/-- `datetime.min`, the sentinel initial value of every `last_alert_time`
entry, as the origin of our time axis. -/
def datetime_min : ℚ := 0

/-- The mutable attributes a `SystemMonitor` instance carries after
`__init__` (src lines 36-45); the console/logging handles are reified as
returned data instead. -/
structure MonitorState where
  thresholds : Thresholds
  email_config : EmailConfig
  interval : ℚ
  alert_cooldown : ℚ
  last_alert_time : LastAlert
deriving DecidableEq, Repr

/-- The placeholder transport settings in the built-in default
configuration (src lines 153-159). -/
def default_email : EmailConfig :=
  { smtp_server := "smtp.gmail.com"
    smtp_port := 587
    sender := "your-email@gmail.com"
    password := "your-app-password"
    recipient := "admin@example.com" }

/-- The whole built-in default configuration dict (src lines 151-160): it
carries only `thresholds` and `email` keys. -/
def default_config_dict : RawConfig :=
  { thresholds := some ⟨80, 80, 80⟩
    email := some default_email
    interval := none
    alert_cooldown := none }

/-- `SystemMonitor._load_config` (src lines 144-160): return the parsed
document; on any exception from `open`/`yaml.safe_load`, log at error
level and return the built-in default dict. -/
def _load_config (parse_result : Except String (Option RawConfig)) :
    Option RawConfig × List LogEvent :=
  match parse_result with
  | Except.ok doc => (doc, [])
  | Except.error e =>
      (some default_config_dict,
        [⟨LogLevel.error, "Failed to load config: " ++ e⟩])

/-- `SystemMonitor.__init__` (src lines 34-51): load the configuration,
then subscript it with `['thresholds']` and `['email']` (a `KeyError` or
`TypeError` there propagates: modelled as `Except.error`), read
`interval`/`alert_cooldown` with `.get` defaults 300/3600, and initialise
every `last_alert_time` entry to `datetime.min`. -/
def SystemMonitor_init (parse_result : Except String (Option RawConfig)) :
    Except String (MonitorState × List LogEvent) :=
  match _load_config parse_result with
  | (none, _logs) =>
      Except.error "TypeError: NoneType object is not subscriptable"
  | (some config, logs) =>
      match config.thresholds with
      | none => Except.error "KeyError: thresholds"
      | some thresholds =>
          match config.email with
          | none => Except.error "KeyError: email"
          | some email_config =>
              Except.ok
                ({ thresholds := thresholds
                   email_config := email_config
                   interval := config.interval.getD 300
                   alert_cooldown := config.alert_cooldown.getD 3600
                   last_alert_time :=
                     ⟨datetime_min, datetime_min, datetime_min⟩ }, logs)

/-- Models `datetime.strftime('%Y-%m-%d %H:%M:%S')` (Python stdlib,
external to the repository): an injection of the timestamp into text;
the calendar rendering is abstracted as the numeric value. -/
def strftime_ymd_hms (t : ℚ) : String := toString t

/-- Fixed-point rendering with one decimal, Python's `:.1f`
(stdlib float formatting, external to the repository; ties modelled as
round-half-up). -/
def fmt_fixed1 (q : ℚ) : String :=
  let n : ℤ := round (q * 10)
  (if n < 0 then "-" else "") ++
    toString (n.natAbs / 10) ++ "." ++ toString (n.natAbs % 10)

/-- Right alignment to width `w`, Python's `:>w` format specifier. -/
def pad_left (w : Nat) (s : String) : String :=
  if s.length < w then
    String.mk (List.replicate (w - s.length) ' ') ++ s
  else s

/-- The per-metric status cell of the report (the inline conditional on
src lines 93-95): `[red]ALERT[/red]` when the value strictly exceeds the
threshold, `[green]OK[/green]` otherwise. -/
def status_markup (value threshold : ℚ) : String :=
  if value > threshold then "[red]ALERT[/red]" else "[green]OK[/green]"

/-- The `'='* 60` rule lines of the report. -/
def rule60 : String := String.mk (List.replicate 60 '=')

/-- `SystemMonitor.format_usage_report` (src lines 88-96): the fixed-layout
textual report. Reads only the thresholds beside its `usage` argument. -/
def format_usage_report (thresholds : Thresholds) (usage : ResourceUsage) :
    String :=
  "\nSystem Resource Usage Report - " ++ strftime_ymd_hms usage.timestamp
    ++ "\n" ++ rule60 ++ "\n"
    ++ "CPU Usage    : " ++ pad_left 5 (fmt_fixed1 usage.cpu_percent)
    ++ "% (Threshold: " ++ toString thresholds.cpu ++ "%) - "
    ++ status_markup usage.cpu_percent thresholds.cpu ++ "\n"
    ++ "Memory Usage : " ++ pad_left 5 (fmt_fixed1 usage.memory_percent)
    ++ "% (Threshold: " ++ toString thresholds.memory ++ "%) - "
    ++ status_markup usage.memory_percent thresholds.memory ++ "\n"
    ++ "Disk Usage   : " ++ pad_left 5 (fmt_fixed1 usage.disk_percent)
    ++ "% (Threshold: " ++ toString thresholds.disk ++ "%) - "
    ++ status_markup usage.disk_percent thresholds.disk ++ "\n"
    ++ rule60

/-- `SystemMonitor.get_resource_usage` (src lines 98-109): return the
psutil snapshot, or log an error and re-raise when the OS query failed. -/
def get_resource_usage (psutil_result : Option ResourceUsage) :
    Except String ResourceUsage × List LogEvent :=
  match psutil_result with
  | some usage => (Except.ok usage, [])
  | none =>
      (Except.error "OS query failed",
        [⟨LogLevel.error, "Failed to get resource usage: OS query failed"⟩])

/-- `SystemMonitor.send_alert` (src lines 162-179): attempt the SMTP
delivery; every exception is caught, so the call always returns, logging
success at info level and failure at error level. -/
def send_alert (em : EmailConfig) (transport_ok : Bool)
    (subject : String) (_message : String) : List LogEvent :=
  if transport_ok then
    [⟨LogLevel.info, "Alert sent: " ++ subject⟩]
  else
    [⟨LogLevel.error,
      "Failed to send alert: SMTP failure for " ++ em.smtp_server⟩]

/-- The cpu alert condition of `check_resources` (src lines 123-124):
breach (strict) and cooldown elapsed (strict). -/
def cpu_fire (m : MonitorState) (usage : ResourceUsage)
    (current_time : ℚ) : Bool :=
  decide (usage.cpu_percent > m.thresholds.cpu) &&
    decide (current_time - m.last_alert_time.cpu > m.alert_cooldown)

/-- The memory alert condition of `check_resources` (src lines 129-130). -/
def memory_fire (m : MonitorState) (usage : ResourceUsage)
    (current_time : ℚ) : Bool :=
  decide (usage.memory_percent > m.thresholds.memory) &&
    decide (current_time - m.last_alert_time.memory > m.alert_cooldown)

/-- The disk alert condition of `check_resources` (src lines 135-136). -/
def disk_fire (m : MonitorState) (usage : ResourceUsage)
    (current_time : ℚ) : Bool :=
  decide (usage.disk_percent > m.thresholds.disk) &&
    decide (current_time - m.last_alert_time.disk > m.alert_cooldown)

/-- What one call of `check_resources` produced beside the state update:
the printed report (none when the tick aborted), the alert events passed
to `send_alert` as (subject, message), and the log calls. -/
structure TickOut where
  report : Option String
  alerts : List (String × String)
  logs : List LogEvent
deriving DecidableEq, Repr

/-- `SystemMonitor.check_resources` (src lines 111-142): sample, print the
report, then for each of cpu/memory/disk in order, if the value strictly
exceeds its threshold and the elapsed time since that metric's last alert
strictly exceeds `alert_cooldown`, call `send_alert` and set that metric's
`last_alert_time` to `current_time` (the `datetime.now()` of src line 121,
a clock reading distinct from `usage.timestamp`). The enclosing
`try/except` turns any sampler failure into a logged, silent return with
nothing else done. -/
def check_resources (m : MonitorState) (psutil_result : Option ResourceUsage)
    (current_time : ℚ) (transport_ok : Metric → Bool) :
    MonitorState × TickOut :=
  match get_resource_usage psutil_result with
  | (Except.error e, logs0) =>
      (m, ⟨none, [],
        logs0 ++ [⟨LogLevel.error, "Error in check_resources: " ++ e⟩]⟩)
  | (Except.ok usage, _) =>
      let report := format_usage_report m.thresholds usage
      let cpu_event :=
        ("High CPU Usage Alert",
          "CPU usage is " ++ fmt_fixed1 usage.cpu_percent ++ "%")
      let memory_event :=
        ("High Memory Usage Alert",
          "Memory usage is " ++ fmt_fixed1 usage.memory_percent ++ "%")
      let disk_event :=
        ("High Disk Usage Alert",
          "Disk usage is " ++ fmt_fixed1 usage.disk_percent ++ "%")
      ({ m with last_alert_time :=
          ⟨(if cpu_fire m usage current_time then current_time
            else m.last_alert_time.cpu),
           (if memory_fire m usage current_time then current_time
            else m.last_alert_time.memory),
           (if disk_fire m usage current_time then current_time
            else m.last_alert_time.disk)⟩ },
        ⟨some report,
          (if cpu_fire m usage current_time then [cpu_event] else []) ++
            (if memory_fire m usage current_time then [memory_event]
             else []) ++
            (if disk_fire m usage current_time then [disk_event] else []),
          (if cpu_fire m usage current_time then
            send_alert m.email_config (transport_ok Metric.cpu)
              cpu_event.1 cpu_event.2
           else []) ++
            (if memory_fire m usage current_time then
              send_alert m.email_config (transport_ok Metric.memory)
                memory_event.1 memory_event.2
             else []) ++
            (if disk_fire m usage current_time then
              send_alert m.email_config (transport_ok Metric.disk)
                disk_event.1 disk_event.2
             else [])⟩)

/-! ### Helper lemmas shared by the claim theorems -/

/-- On a successful sample, the state returned by `check_resources` keeps
all configuration and updates each metric's `last_alert_time` exactly when
its alert condition fired. -/
theorem check_resources_state (m : MonitorState) (u : ResourceUsage)
    (t : ℚ) (ok : Metric → Bool) :
    (check_resources m (some u) t ok).1 =
      { m with last_alert_time :=
          ⟨(if cpu_fire m u t then t else m.last_alert_time.cpu),
           (if memory_fire m u t then t else m.last_alert_time.memory),
           (if disk_fire m u t then t else m.last_alert_time.disk)⟩ } := rfl

/-- On a successful sample, the alert events attempted by
`check_resources`, in source order. -/
theorem check_resources_alerts (m : MonitorState) (u : ResourceUsage)
    (t : ℚ) (ok : Metric → Bool) :
    (check_resources m (some u) t ok).2.alerts =
      (if cpu_fire m u t then
        [("High CPU Usage Alert",
          "CPU usage is " ++ fmt_fixed1 u.cpu_percent ++ "%")] else []) ++
        (if memory_fire m u t then
          [("High Memory Usage Alert",
            "Memory usage is " ++ fmt_fixed1 u.memory_percent ++ "%")]
         else []) ++
        (if disk_fire m u t then
          [("High Disk Usage Alert",
            "Disk usage is " ++ fmt_fixed1 u.disk_percent ++ "%")]
         else []) := rfl

/-- The cpu alert subject appears among the attempted alerts exactly when
the cpu alert condition fired. -/
theorem cpu_subject_mem_iff (m : MonitorState) (u : ResourceUsage)
    (t : ℚ) (ok : Metric → Bool) :
    ("High CPU Usage Alert" ∈
        ((check_resources m (some u) t ok).2.alerts.map Prod.fst)) ↔
      cpu_fire m u t = true := by
  rw [check_resources_alerts]
  cases h1 : cpu_fire m u t <;> cases h2 : memory_fire m u t <;>
    cases h3 : disk_fire m u t <;> simp

/-- The memory alert subject appears among the attempted alerts exactly
when the memory alert condition fired. -/
theorem memory_subject_mem_iff (m : MonitorState) (u : ResourceUsage)
    (t : ℚ) (ok : Metric → Bool) :
    ("High Memory Usage Alert" ∈
        ((check_resources m (some u) t ok).2.alerts.map Prod.fst)) ↔
      memory_fire m u t = true := by
  rw [check_resources_alerts]
  cases h1 : cpu_fire m u t <;> cases h2 : memory_fire m u t <;>
    cases h3 : disk_fire m u t <;> simp

/-- The disk alert subject appears among the attempted alerts exactly when
the disk alert condition fired. -/
theorem disk_subject_mem_iff (m : MonitorState) (u : ResourceUsage)
    (t : ℚ) (ok : Metric → Bool) :
    ("High Disk Usage Alert" ∈
        ((check_resources m (some u) t ok).2.alerts.map Prod.fst)) ↔
      disk_fire m u t = true := by
  rw [check_resources_alerts]
  cases h1 : cpu_fire m u t <;> cases h2 : memory_fire m u t <;>
    cases h3 : disk_fire m u t <;> simp

/-! ### Concrete fixtures used by witnesses and scenario theorems -/

/-- A monitor state as built from the default configuration: thresholds
80/80/80, cooldown 3600 s, fresh (sentinel) cooldown tracker. -/
def fresh_state : MonitorState :=
  { thresholds := ⟨80, 80, 80⟩
    email_config := default_email
    interval := 300
    alert_cooldown := 3600
    last_alert_time := ⟨datetime_min, datetime_min, datetime_min⟩ }

/-- A monitor state with recorded last-alert times 400 (cpu), 0 (memory)
and 1000 (disk), cooldown window 3600 s. -/
def recorded_state : MonitorState :=
  { thresholds := ⟨80, 80, 80⟩
    email_config := default_email
    interval := 300
    alert_cooldown := 3600
    last_alert_time := ⟨400, 0, 1000⟩ }

/-! ### Claim theorems -/

/-- C1: for every sample and threshold configuration (here with the
cooldown gate held open so the evaluation step is exposed), a metric's
alert is attempted by `check_resources` iff the sampled value is strictly
greater than that metric's threshold; equality is not a breach. -/
theorem C1_breach_iff_strictly_above (m : MonitorState) (u : ResourceUsage)
    (t : ℚ) (ok : Metric → Bool)
    (hc : t - m.last_alert_time.cpu > m.alert_cooldown)
    (hm : t - m.last_alert_time.memory > m.alert_cooldown)
    (hd : t - m.last_alert_time.disk > m.alert_cooldown) :
    (("High CPU Usage Alert" ∈
        ((check_resources m (some u) t ok).2.alerts.map Prod.fst)) ↔
      u.cpu_percent > m.thresholds.cpu) ∧
    (("High Memory Usage Alert" ∈
        ((check_resources m (some u) t ok).2.alerts.map Prod.fst)) ↔
      u.memory_percent > m.thresholds.memory) ∧
    (("High Disk Usage Alert" ∈
        ((check_resources m (some u) t ok).2.alerts.map Prod.fst)) ↔
      u.disk_percent > m.thresholds.disk) := by
  refine ⟨?_, ?_, ?_⟩
  · rw [cpu_subject_mem_iff, cpu_fire]
    simp [decide_eq_true hc]
  · rw [memory_subject_mem_iff, memory_fire]
    simp [decide_eq_true hm]
  · rw [disk_subject_mem_iff, disk_fire]
    simp [decide_eq_true hd]

/-- Witness for C1: fresh tracker at time 4000, sample with cpu exactly at
the threshold (no breach), memory above (breach), disk below (no
breach). -/
theorem C1_breach_iff_strictly_above_witness :
    ((4000 : ℚ) - fresh_state.last_alert_time.cpu >
        fresh_state.alert_cooldown) ∧
    ((("High CPU Usage Alert" ∈
        ((check_resources fresh_state (some ⟨80, 85, 10, 3999⟩) 4000
          (fun _ => true)).2.alerts.map Prod.fst)) ↔
      (80 : ℚ) > fresh_state.thresholds.cpu) ∧
    (("High Memory Usage Alert" ∈
        ((check_resources fresh_state (some ⟨80, 85, 10, 3999⟩) 4000
          (fun _ => true)).2.alerts.map Prod.fst)) ↔
      (85 : ℚ) > fresh_state.thresholds.memory) ∧
    (("High Disk Usage Alert" ∈
        ((check_resources fresh_state (some ⟨80, 85, 10, 3999⟩) 4000
          (fun _ => true)).2.alerts.map Prod.fst)) ↔
      (10 : ℚ) > fresh_state.thresholds.disk)) :=
  ⟨by norm_num [fresh_state, datetime_min],
    C1_breach_iff_strictly_above fresh_state ⟨80, 85, 10, 3999⟩ 4000
      (fun _ => true) (by norm_num [fresh_state, datetime_min])
      (by norm_num [fresh_state, datetime_min])
      (by norm_num [fresh_state, datetime_min])⟩

/-- C2: for every metric (here with the breach condition satisfied so the
cooldown gate is exposed), a new alert is attempted iff the elapsed time
since the recorded last-alert time strictly exceeds the cooldown window;
elapsed time equal to the window suppresses the alert. -/
theorem C2_cooldown_strictly_exceeds (m : MonitorState) (u : ResourceUsage)
    (t : ℚ) (ok : Metric → Bool)
    (hc : u.cpu_percent > m.thresholds.cpu)
    (hm : u.memory_percent > m.thresholds.memory)
    (hd : u.disk_percent > m.thresholds.disk) :
    (("High CPU Usage Alert" ∈
        ((check_resources m (some u) t ok).2.alerts.map Prod.fst)) ↔
      t - m.last_alert_time.cpu > m.alert_cooldown) ∧
    (("High Memory Usage Alert" ∈
        ((check_resources m (some u) t ok).2.alerts.map Prod.fst)) ↔
      t - m.last_alert_time.memory > m.alert_cooldown) ∧
    (("High Disk Usage Alert" ∈
        ((check_resources m (some u) t ok).2.alerts.map Prod.fst)) ↔
      t - m.last_alert_time.disk > m.alert_cooldown) := by
  refine ⟨?_, ?_, ?_⟩
  · rw [cpu_subject_mem_iff, cpu_fire]
    simp [decide_eq_true hc]
  · rw [memory_subject_mem_iff, memory_fire]
    simp [decide_eq_true hm]
  · rw [disk_subject_mem_iff, disk_fire]
    simp [decide_eq_true hd]

/-- Witness for C2: all three metrics breached at time 4000 against
recorded last-alert times 400 (elapsed exactly 3600: suppressed),
0 (elapsed 4000 > 3600: re-triggered) and 1000 (elapsed 3000 < 3600:
suppressed). -/
theorem C2_cooldown_strictly_exceeds_witness :
    ((85 : ℚ) > recorded_state.thresholds.cpu) ∧
    ((("High CPU Usage Alert" ∈
        ((check_resources recorded_state (some ⟨85, 90, 95, 3999⟩) 4000
          (fun _ => true)).2.alerts.map Prod.fst)) ↔
      (4000 : ℚ) - recorded_state.last_alert_time.cpu >
        recorded_state.alert_cooldown) ∧
    (("High Memory Usage Alert" ∈
        ((check_resources recorded_state (some ⟨85, 90, 95, 3999⟩) 4000
          (fun _ => true)).2.alerts.map Prod.fst)) ↔
      (4000 : ℚ) - recorded_state.last_alert_time.memory >
        recorded_state.alert_cooldown) ∧
    (("High Disk Usage Alert" ∈
        ((check_resources recorded_state (some ⟨85, 90, 95, 3999⟩) 4000
          (fun _ => true)).2.alerts.map Prod.fst)) ↔
      (4000 : ℚ) - recorded_state.last_alert_time.disk >
        recorded_state.alert_cooldown)) :=
  ⟨by norm_num [recorded_state],
    C2_cooldown_strictly_exceeds recorded_state ⟨85, 90, 95, 3999⟩ 4000
      (fun _ => true) (by norm_num [recorded_state])
      (by norm_num [recorded_state]) (by norm_num [recorded_state])⟩

/-- C3: the state update of `check_resources` is independent of the
transport's success or failure (`send_alert` absorbs every exception), the
attempted alert events are too, and a metric's `last_alert_time` is set to
`current_time` exactly when a notification for it was attempted in the
tick, keeping its old value otherwise. -/
theorem C3_record_iff_attempted (m : MonitorState) (u : ResourceUsage)
    (t : ℚ) (ok ok' : Metric → Bool) :
    ((check_resources m (some u) t ok).1 =
      (check_resources m (some u) t ok').1) ∧
    ((check_resources m (some u) t ok).2.alerts =
      (check_resources m (some u) t ok').2.alerts) ∧
    ((check_resources m (some u) t ok).1.last_alert_time.cpu =
      if "High CPU Usage Alert" ∈
          ((check_resources m (some u) t ok).2.alerts.map Prod.fst)
      then t else m.last_alert_time.cpu) ∧
    ((check_resources m (some u) t ok).1.last_alert_time.memory =
      if "High Memory Usage Alert" ∈
          ((check_resources m (some u) t ok).2.alerts.map Prod.fst)
      then t else m.last_alert_time.memory) ∧
    ((check_resources m (some u) t ok).1.last_alert_time.disk =
      if "High Disk Usage Alert" ∈
          ((check_resources m (some u) t ok).2.alerts.map Prod.fst)
      then t else m.last_alert_time.disk) := by
  refine ⟨rfl, rfl, ?_, ?_, ?_⟩
  · rw [check_resources_state]
    by_cases h : cpu_fire m u t = true
    · simp [h, (cpu_subject_mem_iff m u t ok).mpr h]
    · have h2 : ¬ ("High CPU Usage Alert" ∈
          ((check_resources m (some u) t ok).2.alerts.map Prod.fst)) :=
        fun hx => h ((cpu_subject_mem_iff m u t ok).mp hx)
      simp [h, h2]
  · rw [check_resources_state]
    by_cases h : memory_fire m u t = true
    · simp [h, (memory_subject_mem_iff m u t ok).mpr h]
    · have h2 : ¬ ("High Memory Usage Alert" ∈
          ((check_resources m (some u) t ok).2.alerts.map Prod.fst)) :=
        fun hx => h ((memory_subject_mem_iff m u t ok).mp hx)
      simp [h, h2]
  · rw [check_resources_state]
    by_cases h : disk_fire m u t = true
    · simp [h, (disk_subject_mem_iff m u t ok).mpr h]
    · have h2 : ¬ ("High Disk Usage Alert" ∈
          ((check_resources m (some u) t ok).2.alerts.map Prod.fst)) :=
        fun hx => h ((disk_subject_mem_iff m u t ok).mp hx)
      simp [h, h2]

/-- C4: after `__init__` on any successfully loaded configuration carrying
`thresholds` and `email` keys, every `last_alert_time` entry is the
`datetime.min` sentinel, and the very first breach of each metric passes
the cooldown check and an alert is attempted, for any configured cooldown
window smaller than the time elapsed since the sentinel. -/
theorem C4_sentinel_first_breach_alerts (raw : RawConfig)
    (th : Thresholds) (em : EmailConfig)
    (hth : raw.thresholds = some th) (hem : raw.email = some em)
    (st : MonitorState) (logs : List LogEvent)
    (hinit : SystemMonitor_init (Except.ok (some raw)) =
      Except.ok (st, logs))
    (u : ResourceUsage) (t : ℚ) (ok : Metric → Bool)
    (hcool : st.alert_cooldown < t - datetime_min)
    (hc : u.cpu_percent > st.thresholds.cpu)
    (hm : u.memory_percent > st.thresholds.memory)
    (hd : u.disk_percent > st.thresholds.disk) :
    st.last_alert_time = ⟨datetime_min, datetime_min, datetime_min⟩ ∧
    ("High CPU Usage Alert" ∈
      ((check_resources st (some u) t ok).2.alerts.map Prod.fst)) ∧
    ("High Memory Usage Alert" ∈
      ((check_resources st (some u) t ok).2.alerts.map Prod.fst)) ∧
    ("High Disk Usage Alert" ∈
      ((check_resources st (some u) t ok).2.alerts.map Prod.fst)) := by
  have hla : st.last_alert_time =
      ⟨datetime_min, datetime_min, datetime_min⟩ := by
    simp [SystemMonitor_init, _load_config, hth, hem] at hinit
    rw [← hinit.1]
  have hcpu : st.last_alert_time.cpu = datetime_min := by rw [hla]
  have hmem : st.last_alert_time.memory = datetime_min := by rw [hla]
  have hdisk : st.last_alert_time.disk = datetime_min := by rw [hla]
  refine ⟨hla, ?_, ?_, ?_⟩
  · rw [cpu_subject_mem_iff, cpu_fire, hcpu]
    simp [decide_eq_true hc, decide_eq_true hcool]
  · rw [memory_subject_mem_iff, memory_fire, hmem]
    simp [decide_eq_true hm, decide_eq_true hcool]
  · rw [disk_subject_mem_iff, disk_fire, hdisk]
    simp [decide_eq_true hd, decide_eq_true hcool]

/-- The raw configuration used by the C4 witness: thresholds 80/80/80,
placeholder email, no `interval` key, `alert_cooldown` 60 s. -/
def w4_raw : RawConfig :=
  { thresholds := some ⟨80, 80, 80⟩
    email := some default_email
    interval := none
    alert_cooldown := some 60 }

/-- The monitor state `__init__` builds from `w4_raw`. -/
def w4_state : MonitorState :=
  { thresholds := ⟨80, 80, 80⟩
    email_config := default_email
    interval := 300
    alert_cooldown := 60
    last_alert_time := ⟨datetime_min, datetime_min, datetime_min⟩ }

/-- Witness for C4: the concrete configuration `w4_raw`, first tick at
time 100 with all three metrics at 90 against thresholds 80: all three
first breaches alert. -/
theorem C4_sentinel_first_breach_alerts_witness :
    (SystemMonitor_init (Except.ok (some w4_raw)) =
      Except.ok (w4_state, [])) ∧
    (w4_state.alert_cooldown < (100 : ℚ) - datetime_min) ∧
    (w4_state.last_alert_time =
      ⟨datetime_min, datetime_min, datetime_min⟩ ∧
    ("High CPU Usage Alert" ∈
      ((check_resources w4_state (some ⟨90, 90, 90, 99⟩) 100
        (fun _ => true)).2.alerts.map Prod.fst)) ∧
    ("High Memory Usage Alert" ∈
      ((check_resources w4_state (some ⟨90, 90, 90, 99⟩) 100
        (fun _ => true)).2.alerts.map Prod.fst)) ∧
    ("High Disk Usage Alert" ∈
      ((check_resources w4_state (some ⟨90, 90, 90, 99⟩) 100
        (fun _ => true)).2.alerts.map Prod.fst))) :=
  ⟨rfl, by norm_num [w4_state, datetime_min],
    C4_sentinel_first_breach_alerts w4_raw ⟨80, 80, 80⟩ default_email rfl
      rfl w4_state [] rfl ⟨90, 90, 90, 99⟩ 100 (fun _ => true)
      (by norm_num [w4_state, datetime_min]) (by norm_num [w4_state])
      (by norm_num [w4_state]) (by norm_num [w4_state])⟩

/-- C5 counterexample: fresh tracker, thresholds `{cpu: 80, ...}`,
cooldown window 3600 s, sample `cpu = 85` whose `ResourceUsage.timestamp`
(the `datetime.now()` of `get_resource_usage`, src line 105) is 5000,
while the `current_time` read afterwards by `check_resources`
(src line 121, a second `datetime.now()` call, after the 1-second cpu
measurement window and the report printing) is 5001. The breach is
detected and the alert attempted, but the recorded cpu cooldown timestamp
is 5001, not the sample's timestamp 5000. -/
theorem C5_counterexample :
    ("High CPU Usage Alert" ∈
      ((check_resources fresh_state (some ⟨85, 0, 0, 5000⟩) 5001
        (fun _ => true)).2.alerts.map Prod.fst)) ∧
    (check_resources fresh_state (some ⟨85, 0, 0, 5000⟩) 5001
        (fun _ => true)).1.last_alert_time.cpu ≠
      (ResourceUsage.mk 85 0 0 5000).timestamp := by
  have hfire : cpu_fire fresh_state ⟨85, 0, 0, 5000⟩ 5001 = true := by
    rw [cpu_fire]
    norm_num [fresh_state, datetime_min]
  constructor
  · exact (cpu_subject_mem_iff _ _ _ _).mpr hfire
  · rw [check_resources_state]
    simp only [hfire, if_true]
    norm_num

/-- C5 (amended): when a fresh tracker observes a sample with cpu = 85
against threshold cpu = 80 and cooldown window 3600 s, the breach is
detected, an alert is attempted, and the cpu cooldown timestamp is
recorded as `current_time`, the second `datetime.now()` reading taken by
`check_resources` after sampling — which need not equal the timestamp
stored in the `ResourceUsage` produced for that tick. -/
theorem C5_amended_records_current_time (ts t : ℚ) (ok : Metric → Bool)
    (hcool : (3600 : ℚ) < t - datetime_min) :
    ("High CPU Usage Alert" ∈
      ((check_resources fresh_state (some ⟨85, 0, 0, ts⟩) t
        ok).2.alerts.map Prod.fst)) ∧
    (check_resources fresh_state (some ⟨85, 0, 0, ts⟩) t
        ok).1.last_alert_time.cpu = t := by
  have h85 : ((85 : ℚ)) > fresh_state.thresholds.cpu := by
    norm_num [fresh_state]
  have hc : t - fresh_state.last_alert_time.cpu >
      fresh_state.alert_cooldown := by
    simp only [fresh_state, datetime_min] at hcool ⊢
    exact hcool
  have hfire : cpu_fire fresh_state ⟨85, 0, 0, ts⟩ t = true := by
    rw [cpu_fire]
    simp [decide_eq_true h85, decide_eq_true hc]
  refine ⟨(cpu_subject_mem_iff _ _ _ _).mpr hfire, ?_⟩
  rw [check_resources_state]
  simp only [hfire, if_true]

/-- Witness for C5's amended theorem: sample timestamp 5000, evaluation
time 5001. -/
theorem C5_amended_records_current_time_witness :
    ((3600 : ℚ) < 5001 - datetime_min) ∧
    (("High CPU Usage Alert" ∈
      ((check_resources fresh_state (some ⟨85, 0, 0, 5000⟩) 5001
        (fun _ => false)).2.alerts.map Prod.fst)) ∧
    (check_resources fresh_state (some ⟨85, 0, 0, 5000⟩) 5001
        (fun _ => false)).1.last_alert_time.cpu = 5001) :=
  ⟨by norm_num [datetime_min],
    C5_amended_records_current_time 5000 5001 (fun _ => false)
      (by norm_num [datetime_min])⟩

/-- C6: when the Sampler fails (`get_resource_usage` raises),
`check_resources` produces no report, attempts no notification, leaves
the whole state — every metric's cooldown timestamp included — unchanged,
and returns normally (the enclosing `try/except` absorbs the exception,
only logging it), so the loop proceeds to its sleep and retries on the
next interval. -/
theorem C6_sampler_failure_skips_tick (m : MonitorState) (t : ℚ)
    (ok : Metric → Bool) :
    check_resources m none t ok =
      (m, ⟨none, [],
        [⟨LogLevel.error, "Failed to get resource usage: OS query failed"⟩,
         ⟨LogLevel.error, "Error in check_resources: OS query failed"⟩]⟩) :=
  rfl

/-- C7 counterexample: on a failing configuration load, the single log
event `_load_config` emits is at error level, not warning level, so the
claim's "logged at warning level" is false at this input. -/
theorem C7_counterexample :
    (_load_config (Except.error "No such file or directory")).2 =
      [⟨LogLevel.error,
        "Failed to load config: No such file or directory"⟩] ∧
    LogLevel.error ≠ LogLevel.warning :=
  ⟨rfl, by decide⟩

/-- C7 (amended): for every configuration path whose loading raises,
`_load_config` returns the built-in default configuration with thresholds
exactly `{cpu: 80, memory: 80, disk: 80}` and the placeholder transport
settings, and this fallback is logged at error level rather than silently
swallowed. -/
theorem C7_default_fallback_logged (e : String) :
    _load_config (Except.error e) =
      (some default_config_dict,
        [⟨LogLevel.error, "Failed to load config: " ++ e⟩]) ∧
    default_config_dict.thresholds = some ⟨80, 80, 80⟩ ∧
    default_config_dict.email = some default_email :=
  ⟨rfl, rfl, rfl⟩

/-- The status cell of the report reads `[red]ALERT[/red]` exactly when
the value strictly exceeds the threshold. -/
theorem status_markup_alert_iff (v th : ℚ) :
    (status_markup v th = "[red]ALERT[/red]") ↔ v > th := by
  rw [status_markup]
  by_cases h : v > th
  · simp [h]
  · simp [h]

/-- C8: the OK/ALERT status shown per metric by `format_usage_report`
agrees exactly with the breach decision of the alerting logic in
`check_resources` (here exposed by holding the cooldown gate open): a
metric's line shows ALERT iff that metric's alert is attempted. -/
theorem C8_report_status_agrees_with_alerting (m : MonitorState)
    (u : ResourceUsage) (t : ℚ) (ok : Metric → Bool)
    (hc : t - m.last_alert_time.cpu > m.alert_cooldown)
    (hm : t - m.last_alert_time.memory > m.alert_cooldown)
    (hd : t - m.last_alert_time.disk > m.alert_cooldown) :
    ((status_markup u.cpu_percent m.thresholds.cpu = "[red]ALERT[/red]") ↔
      "High CPU Usage Alert" ∈
        ((check_resources m (some u) t ok).2.alerts.map Prod.fst)) ∧
    ((status_markup u.memory_percent m.thresholds.memory =
        "[red]ALERT[/red]") ↔
      "High Memory Usage Alert" ∈
        ((check_resources m (some u) t ok).2.alerts.map Prod.fst)) ∧
    ((status_markup u.disk_percent m.thresholds.disk =
        "[red]ALERT[/red]") ↔
      "High Disk Usage Alert" ∈
        ((check_resources m (some u) t ok).2.alerts.map Prod.fst)) := by
  obtain ⟨h1, h2, h3⟩ :=
    C1_breach_iff_strictly_above m u t ok hc hm hd
  exact ⟨(status_markup_alert_iff _ _).trans h1.symm,
    (status_markup_alert_iff _ _).trans h2.symm,
    (status_markup_alert_iff _ _).trans h3.symm⟩

/-- Witness for C8: fresh tracker at time 4000, sample 80/85/10 against
thresholds 80/80/80: only the memory line shows ALERT and only the memory
alert is attempted. -/
theorem C8_report_status_agrees_with_alerting_witness :
    ((4000 : ℚ) - fresh_state.last_alert_time.cpu >
        fresh_state.alert_cooldown) ∧
    (((status_markup 80 fresh_state.thresholds.cpu =
        "[red]ALERT[/red]") ↔
      "High CPU Usage Alert" ∈
        ((check_resources fresh_state (some ⟨80, 85, 10, 3999⟩) 4000
          (fun _ => true)).2.alerts.map Prod.fst)) ∧
    ((status_markup 85 fresh_state.thresholds.memory =
        "[red]ALERT[/red]") ↔
      "High Memory Usage Alert" ∈
        ((check_resources fresh_state (some ⟨80, 85, 10, 3999⟩) 4000
          (fun _ => true)).2.alerts.map Prod.fst)) ∧
    ((status_markup 10 fresh_state.thresholds.disk =
        "[red]ALERT[/red]") ↔
      "High Disk Usage Alert" ∈
        ((check_resources fresh_state (some ⟨80, 85, 10, 3999⟩) 4000
          (fun _ => true)).2.alerts.map Prod.fst))) :=
  ⟨by norm_num [fresh_state, datetime_min],
    C8_report_status_agrees_with_alerting fresh_state ⟨80, 85, 10, 3999⟩
      4000 (fun _ => true) (by norm_num [fresh_state, datetime_min])
      (by norm_num [fresh_state, datetime_min])
      (by norm_num [fresh_state, datetime_min])⟩

/-- C9: `format_usage_report` is deterministic in its inputs — two calls
with the same sample and the same thresholds yield character-for-character
identical text — and it has no side effects on the state it reads: even
after a full `check_resources` tick (the only mutator of monitor state),
rendering the same sample again yields the identical text. -/
theorem C9_report_deterministic (m : MonitorState) (u : ResourceUsage)
    (sample : Option ResourceUsage) (t : ℚ) (ok : Metric → Bool) :
    (format_usage_report m.thresholds u =
      format_usage_report m.thresholds u) ∧
    (format_usage_report (check_resources m sample t ok).1.thresholds u =
      format_usage_report m.thresholds u) := by
  refine ⟨rfl, ?_⟩
  cases sample with
  | none => rfl
  | some usage => rw [check_resources_state]

/-- C10: every configuration document that parses successfully but lacks
the `thresholds` key or the `email` key — including an empty file parsing
to `None` — makes `SystemMonitor.__init__` raise (a `TypeError` or
`KeyError` from the subscript) instead of applying the documented default
fallback: a startup-fatal fault, not a recovered `ConfigError`. -/
theorem C10_missing_keys_startup_fatal (raw : Option RawConfig)
    (h : raw = none ∨
      ∃ c, raw = some c ∧ (c.thresholds = none ∨ c.email = none)) :
    ∃ e, SystemMonitor_init (Except.ok raw) = Except.error e := by
  rcases h with h | ⟨c, hc, hkey⟩
  · subst h
    exact ⟨_, rfl⟩
  · subst hc
    cases hth : c.thresholds with
    | none =>
        exact ⟨"KeyError: thresholds",
          by simp [SystemMonitor_init, _load_config, hth]⟩
    | some th =>
        rcases hkey with hth2 | hem
        · rw [hth] at hth2
          exact absurd hth2 (by simp)
        · exact ⟨"KeyError: email",
            by simp [SystemMonitor_init, _load_config, hth, hem]⟩

/-- Witness for C10: the empty configuration file, whose document parses
to `None`. -/
theorem C10_missing_keys_startup_fatal_witness :
    ((none : Option RawConfig) = none ∨
      ∃ c, (none : Option RawConfig) = some c ∧
        (c.thresholds = none ∨ c.email = none)) ∧
    ∃ e, SystemMonitor_init (Except.ok (none : Option RawConfig)) =
      Except.error e :=
  ⟨Or.inl rfl, C10_missing_keys_startup_fatal none (Or.inl rfl)⟩
